import Mathlib

/-!
# Asset generation in `pkg/asset`: the cluster asset and the TLS key pair

A shallow embedding of `Cluster.Generate` (`pkg/asset/cluster/cluster.go`) and
`KeyPair.Generate` (`pkg/asset/tls/keypair.go`).

* The file system is explicit state (`FS`).  Every function of the Go standard
  library, of a third-party package or of another package of the repository that
  `Generate` calls is a field of an environment (`Env`, `TLSEnv`) with the Go
  signature, so a statement that quantifies over the environment covers every
  outcome those calls can have.
* A Go result `(T, error)` is a pair `T × Option Error`; `none` is the nil error.
* A pointer that may be nil is an `Option`.
* A run records the calls it makes, in order, with their arguments and results
  (`Run.trace`).
* A Go run-time panic is an outcome of its own (`Outcome.panic`).
-/

namespace Installer

/-! ## Data model (`pkg/asset`) -/

/-- Go `[]byte`. -/
abbrev Bytes := List UInt8

/-- Go `asset.Content`: a named blob. -/
structure Content where
  Name : String
  Data : Bytes
deriving DecidableEq, Repr

/-- Go `asset.State`: the contents an asset generated. -/
structure State where
  Contents : List Content
deriving DecidableEq, Repr

/-- Go `asset.Asset` as a map key: interface values are compared by identity,
which is a number here. -/
abbrev Asset := Nat

/-- Go `map[asset.Asset]*asset.State`: `none` when the key has no entry,
`some none` when the entry is a nil pointer. -/
abbrev Parents := Asset → Option (Option State)

/-- Go `error` values as `github.com/pkg/errors` builds them.  `raw` is an error
that some callee produced, `errorf` is `errors.Errorf`, `wrap` is the non-nil
result of `errors.Wrap`. -/
inductive Error where
  | raw (msg : String)
  | errorf (msg : String)
  | wrap (cause : Error) (message : String)
deriving DecidableEq, Repr

/-- The run-time panics the embedded code can raise. -/
inductive Panic where
  | nilPointerDereference
  | indexOutOfRange
deriving DecidableEq, Repr

/-- What a call of `Generate` ends with: it returns `(*asset.State, error)`, or
it panics. -/
inductive Outcome where
  | ret (state : Option State) (err : Option Error)
  | panic (p : Panic)
deriving DecidableEq, Repr

/-! ## File system -/

/-- A file-system entry. -/
inductive Node where
  | dir
  | file (data : Bytes)
deriving DecidableEq, Repr

/-- The file system: what is at each path, if anything. -/
abbrev FS := String → Option Node

/-- Whether something exists at the path. -/
def FS.pathExists (fs : FS) (path : String) : Bool :=
  (fs path).isSome

/-- The file system `fs` without `path` and without what is below it. -/
def FS.removeSubtree (fs : FS) (path : String) : FS :=
  fun q => if q = path ∨ (path ++ "/").isPrefixOf q = true then none else fs q

/-! ## Calls and runs -/

/-- One call made by `Cluster.Generate`, with its arguments and its results. -/
inductive Event where
  | TempDir (dir pfx name : String) (err : Option Error)
  | WriteFile (filename : String) (data : Bytes) (err : Option Error)
  | Unmarshal (data : Bytes) (err : Option Error)
  | Unpack (base uri : String) (err : Option Error)
  | Infof (msg : String)
  | Init (dir : String) (err : Option Error)
  | Apply (dir stateFile : String) (err : Option Error)
  | ReadFile (filename : String) (data : Bytes) (err : Option Error)
  | Errorf (stateFile : String) (err : Error)
  | RemoveAll (path : String) (err : Option Error)
deriving DecidableEq, Repr

/-- A finished run: the outcome, the file system it leaves, the calls it made. -/
structure Run where
  out : Outcome
  fs : FS
  trace : List Event

/-- The run `r` preceded by the call `ev`. -/
def Run.record (ev : Event) (r : Run) : Run :=
  { r with trace := ev :: r.trace }

/-- Modelled from the spec: the type `config.Cluster` of `pkg/types/config`, of
which `Generate` reads one field, the platform discriminator. -/
structure ConfigCluster where
  Platform : String
deriving DecidableEq, Repr

/-- The functions `Cluster.Generate` calls. -/
structure Env where
  /-- Go `os.TempDir()`. -/
  osTempDir : String
  /-- Go `ioutil.TempDir(dir, pfx)`. -/
  TempDir : FS → String → String → (String × Option Error) × FS
  /-- Go `filepath.Join(a, b)`. -/
  Join : String → String → String
  /-- Go `ioutil.WriteFile(filename, data, 0600)`. -/
  WriteFile : FS → String → Bytes → Option Error × FS
  /-- Go `json.Unmarshal(data, &tfvars)`: the value left in `tfvars`, and the error. -/
  Unmarshal : Bytes → ConfigCluster × Option Error
  /-- Go `data.Unpack(base, uri)`, of the repository package `data`. -/
  Unpack : FS → String → String → Option Error × FS
  /-- Go `terraform.Init(dir)`, of the repository package `pkg/terraform`. -/
  Init : FS → String → Option Error × FS
  /-- Go `terraform.Apply(dir)`, of the repository package `pkg/terraform`. -/
  Apply : FS → String → (String × Option Error) × FS
  /-- Go `ioutil.ReadFile(filename)`. -/
  ReadFile : FS → String → Bytes × Option Error
  /-- Go `os.RemoveAll(path)`: its error, and the file system it leaves. -/
  RemoveAll : FS → String → Option Error × FS

/-! ## `pkg/asset/cluster/cluster.go` -/

/-- Go constant `stateFileName`. -/
def stateFileName : String := "terraform.state"

/-- Go `Cluster`. -/
structure Cluster where
  rootDir : String
  tfvars : Asset
  kubeconfig : Asset
deriving DecidableEq, Repr

/-- Go `(*Cluster).Name`. -/
def Cluster.Name (_c : Cluster) : String := "Cluster"

/-- Go `(*Cluster).Dependencies`. -/
def Cluster.Dependencies (c : Cluster) : List Asset := [c.tfvars, c.kubeconfig]

/-- Lines 84-105 of `Generate`: apply, read the state file, reconcile. -/
def Cluster.applyAndRead (env : Env) (tmpDir : String) (fs : FS) : Run :=
  let a := env.Apply fs tmpDir
  let stateFile := a.1.1
  let err : Option Error :=
    match a.1.2 with
    | some e => some (Error.wrap e "failed to run terraform")
    | none => none
  let r := env.ReadFile a.2 stateFile
  let data := r.1
  Run.record (.Apply tmpDir stateFile a.1.2) <|
  Run.record (.ReadFile stateFile data r.2) <|
  match r.2 with
  | some err2 =>
    match err with
    | none =>
      ⟨.ret (some ⟨[⟨stateFileName, data⟩]⟩) (some err2), a.2, []⟩
    | some e =>
      ⟨.ret (some ⟨[⟨stateFileName, data⟩]⟩) (some e), a.2, [.Errorf stateFile err2]⟩
  | none =>
    ⟨.ret (some ⟨[⟨stateFileName, data⟩]⟩) err, a.2, []⟩

/-- Lines 58-105 of `Generate`: what runs between `defer os.RemoveAll(tmpDir)`
and the deferred call. -/
def Cluster.generateInTmpDir (env : Env) (state : Option State) (tmpDir : String)
    (fs : FS) : Run :=
  match state with
  | none => ⟨.panic .nilPointerDereference, fs, []⟩
  | some st =>
  match st.Contents with
  | [] => ⟨.panic .indexOutOfRange, fs, []⟩
  | c0 :: _ =>
  let filename := env.Join tmpDir c0.Name
  let w := env.WriteFile fs filename c0.Data
  Run.record (.WriteFile filename c0.Data w.1) <|
  match w.1 with
  | some err => ⟨.ret none (some (.wrap err "failed to write terraform.tfvars file")), w.2, []⟩
  | none =>
  let u := env.Unmarshal c0.Data
  Run.record (.Unmarshal c0.Data u.2) <|
  match u.2 with
  | some err =>
    ⟨.ret none (some (.wrap err "failed to Unmarshal terraform.tfvars file")), w.2, []⟩
  | none =>
  let platform := u.1.Platform
  let p := env.Unpack w.2 tmpDir platform
  Run.record (.Unpack tmpDir platform p.1) <|
  match p.1 with
  | some err => ⟨.ret none (some err), p.2, []⟩
  | none =>
  let q := env.Unpack p.2 (env.Join tmpDir "config.tf") "config.tf"
  Run.record (.Unpack (env.Join tmpDir "config.tf") "config.tf" q.1) <|
  match q.1 with
  | some err => ⟨.ret none (some err), q.2, []⟩
  | none =>
  Run.record (.Infof "Using Terraform to create cluster...") <|
  let i := env.Init q.2 tmpDir
  Run.record (.Init tmpDir i.1) <|
  match i.1 with
  | some err => ⟨.ret none (some (.wrap err "failed to initialize terraform")), i.2, []⟩
  | none => Cluster.applyAndRead env tmpDir i.2

/-- Go `(*Cluster).Generate`.  The deferred `os.RemoveAll(tmpDir)` runs when the
body returns and when it panics; its error is dropped. -/
def Cluster.Generate (c : Cluster) (env : Env) (parents : Parents) (fs : FS) : Run :=
  match parents c.tfvars with
  | none => ⟨.ret none (some (.errorf "failed to get terraform.tfvars from parent")), fs, []⟩
  | some state =>
  let t := env.TempDir fs env.osTempDir "openshift-install-"
  let tmpDir := t.1.1
  Run.record (.TempDir env.osTempDir "openshift-install-" tmpDir t.1.2) <|
  match t.1.2 with
  | some err =>
    ⟨.ret none (some (.wrap err "failed to create temp dir for terraform execution")), t.2, []⟩
  | none =>
  let r := Cluster.generateInTmpDir env state tmpDir t.2
  let x := env.RemoveAll r.fs tmpDir
  ⟨r.out, x.2, r.trace ++ [.RemoveAll tmpDir x.1]⟩

/-! ## `pkg/asset/tls/keypair.go` -/

/-- Go `rsa.PublicKey`. -/
structure RSAPublicKey where
  N : Nat
  E : Nat
deriving DecidableEq, Repr

/-- Go `rsa.PrivateKey`, without the precomputed values. -/
structure RSAPrivateKey where
  PublicKey : RSAPublicKey
  D : Nat
  Primes : List Nat
deriving DecidableEq, Repr

/-- The functions of package `tls` that `KeyPair.Generate` calls; they are
defined in other files of the package. -/
structure TLSEnv where
  /-- Go `PrivateKey()`: the key it draws and its error. -/
  PrivateKey : Unit → RSAPrivateKey × Option Error
  /-- Go `PublicKeyToPem(key)`. -/
  PublicKeyToPem : RSAPublicKey → Bytes × Option Error
  /-- Go `PrivateKeyToPem(key)`. -/
  PrivateKeyToPem : RSAPrivateKey → Bytes
  /-- Go `assetFilePath(filename)`. -/
  assetFilePath : String → String

/-- Go `KeyPair`. -/
structure KeyPair where
  PrivKeyFileName : String
  PubKeyFileName : String
deriving DecidableEq, Repr

/-- Go `(*KeyPair).Dependencies`. -/
def KeyPair.Dependencies (_k : KeyPair) : List Asset := []

/-- Go `(*KeyPair).Generate`.  The conversions `[]byte(...)` are the identity on
`Bytes`. -/
def KeyPair.Generate (k : KeyPair) (env : TLSEnv) (_parents : Parents) : Outcome :=
  let r := env.PrivateKey ()
  let key := r.1
  match r.2 with
  | some err => .ret none (some (.wrap err "failed to generate private key"))
  | none =>
  let q := env.PublicKeyToPem key.PublicKey
  let pubkeyData := q.1
  match q.2 with
  | some err => .ret none (some (.wrap err "failed to get public key data from private key"))
  | none =>
  .ret (some ⟨[⟨env.assetFilePath k.PrivKeyFileName, env.PrivateKeyToPem key⟩,
      ⟨env.assetFilePath k.PubKeyFileName, pubkeyData⟩]⟩) none

/-- Go `(*KeyPair).Name`. -/
def KeyPair.Name (k : KeyPair) : String := "Key Pair (" ++ k.PubKeyFileName ++ ")"

/-! ## Fixtures -/

/-- The bytes of an ASCII string. -/
def asciiBytes (s : String) : Bytes :=
  s.toList.map (fun ch => ch.toNat.toUInt8)

/-- The file system `fs` with `node` put at `path`. -/
def FS.put (fs : FS) (path : String) (node : Node) : FS :=
  fun q => if q = path then some node else fs q

/-- The empty file system. -/
def FS.empty : FS := fun _ => none

/-- An environment in which every call succeeds: the workspace is created, the
unpack calls do nothing, the variables name the platform `fake`, and apply
writes `state-ok` to its state file. -/
def okEnv : Env where
  osTempDir := "/tmp"
  TempDir := fun fs dir pfx =>
    ((dir ++ "/" ++ pfx ++ "1", none), fs.put (dir ++ "/" ++ pfx ++ "1") .dir)
  Join := fun a b => a ++ "/" ++ b
  WriteFile := fun fs filename data => (none, fs.put filename (.file data))
  Unmarshal := fun data =>
    if data = asciiBytes "\x7b\"platform\":\"fake\"\x7d" then (⟨"fake"⟩, none)
    else (⟨""⟩, some (.raw "invalid character"))
  Unpack := fun fs _ _ => (none, fs)
  Init := fun fs _ => (none, fs)
  Apply := fun fs dir =>
    ((dir ++ "/terraform.tfstate", none),
      fs.put (dir ++ "/terraform.tfstate") (.file (asciiBytes "state-ok")))
  ReadFile := fun fs filename =>
    match fs filename with
    | some (.file data) => (data, none)
    | _ => ([], some (.raw "open: no such file or directory"))
  RemoveAll := fun fs path => (none, fs.removeSubtree path)

/-- The cluster asset of the fixtures: its tfvars parent is asset 1. -/
def theCluster : Cluster := ⟨"/assets", 1, 2⟩

/-- Parents with the variables document `{"platform":"fake"}` for asset 1. -/
def okParents : Parents :=
  fun a => if a = 1 then
    some (some ⟨[⟨"terraform.tfvars", asciiBytes "\x7b\"platform\":\"fake\"\x7d"⟩]⟩) else none

/-- As `okEnv`, but `terraform.Init` fails. -/
def initFailEnv : Env :=
  { okEnv with Init := fun fs _ => (some (.raw "init failed"), fs) }

/-- As `okEnv`, but apply fails after it wrote `state-partial` to its state file. -/
def applyFailEnv : Env :=
  { okEnv with
    Apply := fun fs dir =>
      ((dir ++ "/terraform.tfstate", some (.raw "apply failed")),
        fs.put (dir ++ "/terraform.tfstate") (.file (asciiBytes "state-partial"))) }

/-- As `okEnv`, but apply fails and leaves no state file. -/
def applyFailNoStateEnv : Env :=
  { okEnv with
    Apply := fun fs dir => ((dir ++ "/terraform.tfstate", some (.raw "apply failed")), fs) }

/-- As `okEnv`, but apply, though it succeeds, leaves no state file. -/
def applyOkNoStateEnv : Env :=
  { okEnv with Apply := fun fs dir => ((dir ++ "/terraform.tfstate", none), fs) }

/-- As `okEnv`, but unpacking the platform templates fails. -/
def unpackPlatformFailEnv : Env :=
  { okEnv with
    Unpack := fun fs _ uri =>
      if uri = "config.tf" then (none, fs) else (some (.raw "unpack failed"), fs) }

/-- As `okEnv`, but unpacking `config.tf` fails. -/
def unpackConfigFailEnv : Env :=
  { okEnv with
    Unpack := fun fs _ uri =>
      if uri = "config.tf" then (some (.raw "unpack failed"), fs) else (none, fs) }

/-- As `okEnv`, but apply fails and the read of the state file fails after it
got three bytes. -/
def applyFailReadBytesEnv : Env :=
  { okEnv with
    Apply := fun fs dir => ((dir ++ "/terraform.tfstate", some (.raw "apply failed")), fs)
    ReadFile := fun _ _ => ([1, 2, 3], some (.raw "read: input/output error")) }

/-- As `okEnv`, but `os.RemoveAll` fails and removes nothing. -/
def removeFailEnv : Env :=
  { okEnv with RemoveAll := fun fs _ => (some (.raw "unlinkat: permission denied"), fs) }

/-- Whether a returned State is absent or carries no bytes: it is nil, or each
of its Contents, if it has any, has empty Data. -/
def carriesNoBytes (state : Option State) : Bool :=
  match state with
  | none => true
  | some st => st.Contents.all (fun c => c.Data.isEmpty)

/-- As `okEnv`, but writing the variables file fails. -/
def writeFailEnv : Env :=
  { okEnv with WriteFile := fun fs _ _ => (some (.raw "write failed"), fs) }

/-- Parents without any entry. -/
def noParents : Parents := fun _ => none

/-- Parents whose entry for asset 1 is a State without contents. -/
def emptyStateParents : Parents :=
  fun a => if a = 1 then some (some ⟨[]⟩) else none

/-- A key pair asset. -/
def theKeyPair : KeyPair := ⟨"ca.key", "ca.pub"⟩

/-- A TLS environment in which every call succeeds. -/
def okTLSEnv : TLSEnv where
  PrivateKey := fun _ => (⟨⟨3233, 17⟩, 2753, [61, 53]⟩, none)
  PublicKeyToPem := fun _ => (asciiBytes "PUBLIC KEY", none)
  PrivateKeyToPem := fun _ => asciiBytes "RSA PRIVATE KEY"
  assetFilePath := fun filename => "tls/" ++ filename

/-- A TLS environment in which `PublicKeyToPem` fails. -/
def pemFailTLSEnv : TLSEnv :=
  { okTLSEnv with PublicKeyToPem := fun _ => ([], some (.raw "encoding failed")) }

/-! ## The exit paths of `Cluster.Generate` -/

/-- The ways a call of `Cluster.Generate` can end: for each, the outcome and the
calls made, in order.  `d`, `p`, `n` are the arguments and the result of
`ioutil.TempDir`; `f`, `b` the file written; `u` the platform; `g` the path of
`config.tf`; `sf` the state file that apply names; `s` the bytes read from it. -/
inductive ExitPath : Outcome → List Event → Prop where
  | missingParent :
      ExitPath (.ret none (some (.errorf "failed to get terraform.tfvars from parent"))) []
  | tempDirFailed (d p n : String) (e : Error) :
      ExitPath (.ret none (some (.wrap e "failed to create temp dir for terraform execution")))
        [.TempDir d p n (some e)]
  | nilState (d p n : String) (x : Option Error) :
      ExitPath (.panic .nilPointerDereference) [.TempDir d p n none, .RemoveAll n x]
  | noContents (d p n : String) (x : Option Error) :
      ExitPath (.panic .indexOutOfRange) [.TempDir d p n none, .RemoveAll n x]
  | writeFailed (d p n f : String) (b : Bytes) (e : Error) (x : Option Error) :
      ExitPath (.ret none (some (.wrap e "failed to write terraform.tfvars file")))
        [.TempDir d p n none, .WriteFile f b (some e), .RemoveAll n x]
  | unmarshalFailed (d p n f : String) (b : Bytes) (e : Error) (x : Option Error) :
      ExitPath (.ret none (some (.wrap e "failed to Unmarshal terraform.tfvars file")))
        [.TempDir d p n none, .WriteFile f b none, .Unmarshal b (some e), .RemoveAll n x]
  | unpackPlatformFailed (d p n f : String) (b : Bytes) (u : String) (e : Error) (x : Option Error) :
      ExitPath (.ret none (some e))
        [.TempDir d p n none, .WriteFile f b none, .Unmarshal b none, .Unpack n u (some e),
          .RemoveAll n x]
  | unpackConfigFailed (d p n f : String) (b : Bytes) (u g : String) (e : Error) (x : Option Error) :
      ExitPath (.ret none (some e))
        [.TempDir d p n none, .WriteFile f b none, .Unmarshal b none, .Unpack n u none,
          .Unpack g "config.tf" (some e), .RemoveAll n x]
  | initFailed (d p n f : String) (b : Bytes) (u g : String) (e : Error) (x : Option Error) :
      ExitPath (.ret none (some (.wrap e "failed to initialize terraform")))
        [.TempDir d p n none, .WriteFile f b none, .Unmarshal b none, .Unpack n u none,
          .Unpack g "config.tf" none, .Infof "Using Terraform to create cluster...",
          .Init n (some e), .RemoveAll n x]
  | applyOkReadOk (d p n f : String) (b : Bytes) (u g sf : String) (s : Bytes) (x : Option Error) :
      ExitPath (.ret (some ⟨[⟨stateFileName, s⟩]⟩) none)
        [.TempDir d p n none, .WriteFile f b none, .Unmarshal b none, .Unpack n u none,
          .Unpack g "config.tf" none, .Infof "Using Terraform to create cluster...",
          .Init n none, .Apply n sf none, .ReadFile sf s none, .RemoveAll n x]
  | applyOkReadFailed (d p n f : String) (b : Bytes) (u g sf : String) (s : Bytes)
      (re : Error) (x : Option Error) :
      ExitPath (.ret (some ⟨[⟨stateFileName, s⟩]⟩) (some re))
        [.TempDir d p n none, .WriteFile f b none, .Unmarshal b none, .Unpack n u none,
          .Unpack g "config.tf" none, .Infof "Using Terraform to create cluster...",
          .Init n none, .Apply n sf none, .ReadFile sf s (some re), .RemoveAll n x]
  | applyFailedReadOk (d p n f : String) (b : Bytes) (u g sf : String) (s : Bytes)
      (ae : Error) (x : Option Error) :
      ExitPath (.ret (some ⟨[⟨stateFileName, s⟩]⟩) (some (.wrap ae "failed to run terraform")))
        [.TempDir d p n none, .WriteFile f b none, .Unmarshal b none, .Unpack n u none,
          .Unpack g "config.tf" none, .Infof "Using Terraform to create cluster...",
          .Init n none, .Apply n sf (some ae), .ReadFile sf s none, .RemoveAll n x]
  | applyFailedReadFailed (d p n f : String) (b : Bytes) (u g sf : String) (s : Bytes)
      (ae re : Error) (x : Option Error) :
      ExitPath (.ret (some ⟨[⟨stateFileName, s⟩]⟩) (some (.wrap ae "failed to run terraform")))
        [.TempDir d p n none, .WriteFile f b none, .Unmarshal b none, .Unpack n u none,
          .Unpack g "config.tf" none, .Infof "Using Terraform to create cluster...",
          .Init n none, .Apply n sf (some ae), .ReadFile sf s (some re), .Errorf sf re,
          .RemoveAll n x]

@[simp] theorem Run.record_out (ev : Event) (r : Run) : (Run.record ev r).out = r.out := rfl

@[simp] theorem Run.record_fs (ev : Event) (r : Run) : (Run.record ev r).fs = r.fs := rfl

@[simp] theorem Run.record_trace (ev : Event) (r : Run) :
    (Run.record ev r).trace = ev :: r.trace := rfl

/-- The outcome and the calls of the apply-and-read phase, by the four results
that apply and the read can have. -/
theorem Cluster.applyAndRead_cases (env : Env) (tmpDir : String) (fs : FS) :
    ∃ sf s, 
      ((Cluster.applyAndRead env tmpDir fs).out = .ret (some ⟨[⟨stateFileName, s⟩]⟩) none ∧
        (Cluster.applyAndRead env tmpDir fs).trace =
          [.Apply tmpDir sf none, .ReadFile sf s none]) ∨
      (∃ re, (Cluster.applyAndRead env tmpDir fs).out =
          .ret (some ⟨[⟨stateFileName, s⟩]⟩) (some re) ∧
        (Cluster.applyAndRead env tmpDir fs).trace =
          [.Apply tmpDir sf none, .ReadFile sf s (some re)]) ∨
      (∃ ae, (Cluster.applyAndRead env tmpDir fs).out =
          .ret (some ⟨[⟨stateFileName, s⟩]⟩) (some (.wrap ae "failed to run terraform")) ∧
        (Cluster.applyAndRead env tmpDir fs).trace =
          [.Apply tmpDir sf (some ae), .ReadFile sf s none]) ∨
      (∃ ae re, (Cluster.applyAndRead env tmpDir fs).out =
          .ret (some ⟨[⟨stateFileName, s⟩]⟩) (some (.wrap ae "failed to run terraform")) ∧
        (Cluster.applyAndRead env tmpDir fs).trace =
          [.Apply tmpDir sf (some ae), .ReadFile sf s (some re), .Errorf sf re]) := by
  refine ⟨(env.Apply fs tmpDir).1.1,
    (env.ReadFile (env.Apply fs tmpDir).2 (env.Apply fs tmpDir).1.1).1, ?_⟩
  unfold Cluster.applyAndRead
  cases ha : (env.Apply fs tmpDir).1.2 <;>
    cases hr : (env.ReadFile (env.Apply fs tmpDir).2 (env.Apply fs tmpDir).1.1).2 <;>
    simp [ha, hr]

/-- Every run inside the workspace ends on one of the exit paths. -/
theorem Cluster.generateInTmpDir_exitPath (env : Env) (state : Option State)
    (d p tmpDir : String) (fs : FS) (x : Option Error) :
    ExitPath (Cluster.generateInTmpDir env state tmpDir fs).out
      (.TempDir d p tmpDir none ::
        ((Cluster.generateInTmpDir env state tmpDir fs).trace ++ [.RemoveAll tmpDir x])) := by
  unfold Cluster.generateInTmpDir
  obtain _ | ⟨⟨_ | ⟨c0, rest⟩⟩⟩ := state
  · exact ExitPath.nilState d p tmpDir x
  · exact ExitPath.noContents d p tmpDir x
  simp only []
  cases hw : (env.WriteFile fs (env.Join tmpDir c0.Name) c0.Data).1 with
  | some e => simpa [hw] using ExitPath.writeFailed d p tmpDir _ _ e x
  | none =>
  cases hu : (env.Unmarshal c0.Data).2 with
  | some e => simpa [hw, hu] using ExitPath.unmarshalFailed d p tmpDir _ _ e x
  | none =>
  cases hp : (env.Unpack (env.WriteFile fs (env.Join tmpDir c0.Name) c0.Data).2 tmpDir
      (env.Unmarshal c0.Data).1.Platform).1 with
  | some e => simpa [hw, hu, hp] using ExitPath.unpackPlatformFailed d p tmpDir _ _ _ e x
  | none =>
  cases hq : (env.Unpack (env.Unpack (env.WriteFile fs (env.Join tmpDir c0.Name) c0.Data).2
      tmpDir (env.Unmarshal c0.Data).1.Platform).2 (env.Join tmpDir "config.tf") "config.tf").1 with
  | some e => simpa [hw, hu, hp, hq] using ExitPath.unpackConfigFailed d p tmpDir _ _ _ _ e x
  | none =>
  cases hi : (env.Init (env.Unpack (env.Unpack (env.WriteFile fs (env.Join tmpDir c0.Name)
      c0.Data).2 tmpDir (env.Unmarshal c0.Data).1.Platform).2 (env.Join tmpDir "config.tf")
      "config.tf").2 tmpDir).1 with
  | some e => simpa [hw, hu, hp, hq, hi] using ExitPath.initFailed d p tmpDir _ _ _ _ e x
  | none =>
  simp only [hw, hu, hp, hq, hi, Run.record_out, Run.record_trace, List.cons_append]
  obtain ⟨sf, s, h | ⟨re, h⟩ | ⟨ae, h⟩ | ⟨ae, re, h⟩⟩ := Cluster.applyAndRead_cases env tmpDir
    (env.Init (env.Unpack (env.Unpack (env.WriteFile fs (env.Join tmpDir c0.Name)
      c0.Data).2 tmpDir (env.Unmarshal c0.Data).1.Platform).2 (env.Join tmpDir "config.tf")
      "config.tf").2 tmpDir).2
  · rw [h.1, h.2]; exact ExitPath.applyOkReadOk d p tmpDir _ _ _ _ sf s x
  · rw [h.1, h.2]; exact ExitPath.applyOkReadFailed d p tmpDir _ _ _ _ sf s re x
  · rw [h.1, h.2]; exact ExitPath.applyFailedReadOk d p tmpDir _ _ _ _ sf s ae x
  · rw [h.1, h.2]; exact ExitPath.applyFailedReadFailed d p tmpDir _ _ _ _ sf s ae re x

/-- Every call of `Cluster.Generate` ends on one of the exit paths. -/
theorem Cluster.Generate_exitPath (c : Cluster) (env : Env) (parents : Parents) (fs : FS) :
    ExitPath (c.Generate env parents fs).out (c.Generate env parents fs).trace := by
  unfold Cluster.Generate
  cases hs : parents c.tfvars with
  | none => exact ExitPath.missingParent
  | some state =>
  cases ht : (env.TempDir fs env.osTempDir "openshift-install-").1.2 with
  | some e => simpa [ht] using ExitPath.tempDirFailed _ _ _ e
  | none =>
  simpa [ht] using Cluster.generateInTmpDir_exitPath env state env.osTempDir
    "openshift-install-" (env.TempDir fs env.osTempDir "openshift-install-").1.1
    (env.TempDir fs env.osTempDir "openshift-install-").2 _

/-- On every exit path that has a successful `ioutil.TempDir`, the last call is
`os.RemoveAll` on the directory it returned. -/
theorem ExitPath.tempDir_removed {o : Outcome} {t : List Event} (hp : ExitPath o t)
    {d p n : String} (h : Event.TempDir d p n none ∈ t) :
    ∃ x, t.getLast? = some (.RemoveAll n x) := by
  cases hp <;> simp_all

/-- Nothing exists at a path once its subtree is removed. -/
theorem FS.removeSubtree_pathExists (fs : FS) (path : String) :
    (fs.removeSubtree path).pathExists path = false := by
  simp [FS.removeSubtree, FS.pathExists]

/-! ## Theorems -/

/-- C1: when the parents have no entry for the tfvars asset, `Generate` returns a
nil State and the error "failed to get terraform.tfvars from parent", and it has
made no call by then: no workspace is created, no collaborator is invoked, and
the file system is as it was. -/
theorem Cluster_Generate_missing_tfvars (c : Cluster) (env : Env) (parents : Parents)
    (fs : FS) (h : parents c.tfvars = none) :
    (c.Generate env parents fs).out =
      .ret none (some (.errorf "failed to get terraform.tfvars from parent")) ∧
    (c.Generate env parents fs).trace = [] ∧
    (c.Generate env parents fs).fs = fs := by
  simp [Cluster.Generate, h]

theorem Cluster_Generate_missing_tfvars_witness :
    noParents theCluster.tfvars = none ∧
    (theCluster.Generate okEnv noParents FS.empty).out =
      .ret none (some (.errorf "failed to get terraform.tfvars from parent")) ∧
    (theCluster.Generate okEnv noParents FS.empty).trace = [] ∧
    (theCluster.Generate okEnv noParents FS.empty).fs = FS.empty :=
  ⟨rfl, Cluster_Generate_missing_tfvars theCluster okEnv noParents FS.empty rfl⟩

/-- C2: when `terraform.Init` returns an error, `terraform.Apply` is never
called, and `Generate` returns a nil State with the init error wrapped as
"failed to initialize terraform". -/
theorem Cluster_Generate_init_failure_skips_apply (c : Cluster) (env : Env)
    (parents : Parents) (fs : FS) (dir : String) (e : Error)
    (h : Event.Init dir (some e) ∈ (c.Generate env parents fs).trace) :
    (∀ d sf r, Event.Apply d sf r ∉ (c.Generate env parents fs).trace) ∧
    (c.Generate env parents fs).out =
      .ret none (some (.wrap e "failed to initialize terraform")) := by
  have hp := Cluster.Generate_exitPath c env parents fs
  generalize (c.Generate env parents fs).out = o at hp ⊢
  generalize (c.Generate env parents fs).trace = t at hp h ⊢
  cases hp <;> simp_all

theorem Cluster_Generate_init_failure_skips_apply_witness :
    (∀ d sf r, Event.Apply d sf r ∉ (theCluster.Generate initFailEnv okParents FS.empty).trace) ∧
    (theCluster.Generate initFailEnv okParents FS.empty).out =
      .ret none (some (.wrap (.raw "init failed") "failed to initialize terraform")) :=
  Cluster_Generate_init_failure_skips_apply theCluster initFailEnv okParents FS.empty
    "/tmp/openshift-install-1" (.raw "init failed") (by decide)

/-- C3: when `terraform.Apply` succeeds and the read of the state file it names
succeeds with bytes `b`, `Generate` returns a nil error and a State with exactly
one Content, named "terraform.state", whose Data is `b`. -/
theorem Cluster_Generate_apply_ok_read_ok (c : Cluster) (env : Env) (parents : Parents)
    (fs : FS) (dir sf : String) (b : Bytes)
    (ha : Event.Apply dir sf none ∈ (c.Generate env parents fs).trace)
    (hr : Event.ReadFile sf b none ∈ (c.Generate env parents fs).trace) :
    (c.Generate env parents fs).out = .ret (some ⟨[⟨"terraform.state", b⟩]⟩) none := by
  have hp := Cluster.Generate_exitPath c env parents fs
  generalize (c.Generate env parents fs).out = o at hp ⊢
  generalize (c.Generate env parents fs).trace = t at hp ha hr ⊢
  cases hp <;> simp_all [stateFileName]

theorem Cluster_Generate_apply_ok_read_ok_witness :
    (theCluster.Generate okEnv okParents FS.empty).out =
      .ret (some ⟨[⟨"terraform.state", asciiBytes "state-ok"⟩]⟩) none :=
  Cluster_Generate_apply_ok_read_ok theCluster okEnv okParents FS.empty
    "/tmp/openshift-install-1" "/tmp/openshift-install-1/terraform.tfstate"
    (asciiBytes "state-ok") (by decide) (by decide)

/-- C4: when `terraform.Apply` fails with `e` and the read of the state file
succeeds with bytes `b`, `Generate` returns both a State whose single Content has
Data `b` and the error `e` wrapped as "failed to run terraform". -/
theorem Cluster_Generate_apply_failed_read_ok (c : Cluster) (env : Env) (parents : Parents)
    (fs : FS) (dir sf : String) (b : Bytes) (e : Error)
    (ha : Event.Apply dir sf (some e) ∈ (c.Generate env parents fs).trace)
    (hr : Event.ReadFile sf b none ∈ (c.Generate env parents fs).trace) :
    (c.Generate env parents fs).out =
      .ret (some ⟨[⟨"terraform.state", b⟩]⟩) (some (.wrap e "failed to run terraform")) := by
  have hp := Cluster.Generate_exitPath c env parents fs
  generalize (c.Generate env parents fs).out = o at hp ⊢
  generalize (c.Generate env parents fs).trace = t at hp ha hr ⊢
  cases hp <;> simp_all [stateFileName]

theorem Cluster_Generate_apply_failed_read_ok_witness :
    (theCluster.Generate applyFailEnv okParents FS.empty).out =
      .ret (some ⟨[⟨"terraform.state", asciiBytes "state-partial"⟩]⟩)
        (some (.wrap (.raw "apply failed") "failed to run terraform")) :=
  Cluster_Generate_apply_failed_read_ok theCluster applyFailEnv okParents FS.empty
    "/tmp/openshift-install-1" "/tmp/openshift-install-1/terraform.tfstate"
    (asciiBytes "state-partial") (.raw "apply failed") (by decide) (by decide)

/-- C5, as the claim states it, fails: apply fails and the read of the state
file fails, and the State that `Generate` returns is neither absent nor empty: it
has the Content "terraform.state" with the three bytes that the failed read
returned. -/
theorem Cluster_Generate_failed_read_bytes_returned :
    Event.Apply "/tmp/openshift-install-1" "/tmp/openshift-install-1/terraform.tfstate"
        (some (.raw "apply failed")) ∈
      (theCluster.Generate applyFailReadBytesEnv okParents FS.empty).trace ∧
    Event.ReadFile "/tmp/openshift-install-1/terraform.tfstate" [1, 2, 3]
        (some (.raw "read: input/output error")) ∈
      (theCluster.Generate applyFailReadBytesEnv okParents FS.empty).trace ∧
    (theCluster.Generate applyFailReadBytesEnv okParents FS.empty).out =
      .ret (some ⟨[⟨"terraform.state", [1, 2, 3]⟩]⟩)
        (some (.wrap (.raw "apply failed") "failed to run terraform")) ∧
    carriesNoBytes (some ⟨[⟨"terraform.state", [1, 2, 3]⟩]⟩) = false := by
  decide

/-- C5, amended: when `terraform.Apply` fails with `e` and the read of the state
file fails too, with `r`, the error `Generate` returns is `e` wrapped as "failed to
run terraform", whatever `r` is, and `r` only goes to the log; the State returned
is not nil: it has exactly one Content, "terraform.state", whose Data is the
bytes `b` that the failed read returned, so it carries no bytes exactly when the
read returned none. -/
theorem Cluster_Generate_apply_failed_read_failed (c : Cluster) (env : Env)
    (parents : Parents) (fs : FS) (dir sf : String) (b : Bytes) (e r : Error)
    (ha : Event.Apply dir sf (some e) ∈ (c.Generate env parents fs).trace)
    (hr : Event.ReadFile sf b (some r) ∈ (c.Generate env parents fs).trace) :
    (c.Generate env parents fs).out =
      .ret (some ⟨[⟨"terraform.state", b⟩]⟩) (some (.wrap e "failed to run terraform")) ∧
    Event.Errorf sf r ∈ (c.Generate env parents fs).trace ∧
    (carriesNoBytes (some ⟨[⟨"terraform.state", b⟩]⟩) = true ↔ b = []) := by
  have hp := Cluster.Generate_exitPath c env parents fs
  generalize (c.Generate env parents fs).out = o at hp ⊢
  generalize (c.Generate env parents fs).trace = t at hp ha hr ⊢
  cases hp <;> simp_all [stateFileName, carriesNoBytes]

theorem Cluster_Generate_apply_failed_read_failed_witness :
    (theCluster.Generate applyFailNoStateEnv okParents FS.empty).out =
      .ret (some ⟨[⟨"terraform.state", []⟩]⟩)
        (some (.wrap (.raw "apply failed") "failed to run terraform")) ∧
    Event.Errorf "/tmp/openshift-install-1/terraform.tfstate"
        (.raw "open: no such file or directory") ∈
      (theCluster.Generate applyFailNoStateEnv okParents FS.empty).trace ∧
    (carriesNoBytes (some ⟨[⟨"terraform.state", []⟩]⟩) = true ↔ ([] : Bytes) = []) :=
  Cluster_Generate_apply_failed_read_failed theCluster applyFailNoStateEnv okParents FS.empty
    "/tmp/openshift-install-1" "/tmp/openshift-install-1/terraform.tfstate" []
    (.raw "apply failed") (.raw "open: no such file or directory") (by decide) (by decide)

/-- C6: when `terraform.Apply` succeeds and the read of the state file fails with
`r`, `Generate` returns a non-nil error, and it is `r` itself. -/
theorem Cluster_Generate_apply_ok_read_failed (c : Cluster) (env : Env) (parents : Parents)
    (fs : FS) (dir sf : String) (b : Bytes) (r : Error)
    (ha : Event.Apply dir sf none ∈ (c.Generate env parents fs).trace)
    (hr : Event.ReadFile sf b (some r) ∈ (c.Generate env parents fs).trace) :
    (c.Generate env parents fs).out = .ret (some ⟨[⟨"terraform.state", b⟩]⟩) (some r) := by
  have hp := Cluster.Generate_exitPath c env parents fs
  generalize (c.Generate env parents fs).out = o at hp ⊢
  generalize (c.Generate env parents fs).trace = t at hp ha hr ⊢
  cases hp <;> simp_all [stateFileName]

theorem Cluster_Generate_apply_ok_read_failed_witness :
    (theCluster.Generate applyOkNoStateEnv okParents FS.empty).out =
      .ret (some ⟨[⟨"terraform.state", []⟩]⟩) (some (.raw "open: no such file or directory")) :=
  Cluster_Generate_apply_ok_read_failed theCluster applyOkNoStateEnv okParents FS.empty
    "/tmp/openshift-install-1" "/tmp/openshift-install-1/terraform.tfstate" []
    (.raw "open: no such file or directory") (by decide) (by decide)

/-- C7, as the claim states it, fails: the workspace was created, `os.RemoveAll`
fails, `Generate` drops that error, and the workspace still exists in the file
system that `Generate` leaves. -/
theorem Cluster_Generate_workspace_left_behind :
    Event.TempDir "/tmp" "openshift-install-" "/tmp/openshift-install-1" none ∈
      (theCluster.Generate removeFailEnv okParents FS.empty).trace ∧
    (theCluster.Generate removeFailEnv okParents FS.empty).out =
      .ret (some ⟨[⟨"terraform.state", asciiBytes "state-ok"⟩]⟩) none ∧
    (theCluster.Generate removeFailEnv okParents FS.empty).fs.pathExists
      "/tmp/openshift-install-1" = true := by
  decide

/-- C7, amended: when `ioutil.TempDir` succeeded and returned the directory `n`,
then on every exit path, panics included, the last call `Generate` makes is
`os.RemoveAll(n)`, and the file system `Generate` leaves is the one that call
leaves; so nothing exists at `n` afterwards whenever that call removed it.  The
error of that call is not returned. -/
theorem Cluster_Generate_removes_workspace (c : Cluster) (env : Env) (parents : Parents)
    (fs : FS) (d p n : String)
    (h : Event.TempDir d p n none ∈ (c.Generate env parents fs).trace) :
    ∃ fs0,
      (c.Generate env parents fs).trace.getLast? =
        some (.RemoveAll n (env.RemoveAll fs0 n).1) ∧
      (c.Generate env parents fs).fs = (env.RemoveAll fs0 n).2 ∧
      ((env.RemoveAll fs0 n).2.pathExists n = false →
        (c.Generate env parents fs).fs.pathExists n = false) := by
  obtain ⟨x, hl⟩ := (Cluster.Generate_exitPath c env parents fs).tempDir_removed h
  unfold Cluster.Generate at h hl ⊢
  cases hs : parents c.tfvars with
  | none => simp [hs] at h
  | some state =>
  cases ht : (env.TempDir fs env.osTempDir "openshift-install-").1.2 with
  | some e => simp [hs, ht] at h
  | none =>
  simp only [hs, ht, Run.record_trace, Run.record_fs] at hl ⊢
  have hn : (env.TempDir fs env.osTempDir "openshift-install-").1.1 = n := by
    rw [← List.cons_append, List.getLast?_append] at hl
    simp at hl
    exact hl.1
  refine ⟨(Cluster.generateInTmpDir env state n
    (env.TempDir fs env.osTempDir "openshift-install-").2).fs, ?_, ?_, ?_⟩
  · rw [← List.cons_append, List.getLast?_append, hn]
    simp
  · rw [hn]
  · rw [hn]
    exact id

theorem Cluster_Generate_removes_workspace_witness :
    (theCluster.Generate applyFailEnv okParents FS.empty).fs.pathExists
      "/tmp/openshift-install-1" = false :=
  (Cluster_Generate_removes_workspace theCluster applyFailEnv okParents FS.empty
    "/tmp" "openshift-install-" "/tmp/openshift-install-1" (by decide)).elim
    fun fs0 hx => hx.2.2 (FS.removeSubtree_pathExists fs0 "/tmp/openshift-install-1")

/-- C8: `KeyPair.Generate` is all-or-nothing.  If `PrivateKey` fails, or
`PublicKeyToPem` fails on the public half of the key drawn, it returns a nil State
and the error wrapped; otherwise it returns a nil error and a State with exactly
two Contents, in this order: `assetFilePath(PrivKeyFileName)` with the PEM of the
private key, then `assetFilePath(PubKeyFileName)` with the PEM of the public half
of that same key.  Whatever it returns is either a nil State with an error or a
State of two Contents without an error, never a State of one Content, and the
parents do not matter. -/
theorem KeyPair_Generate_all_or_nothing (k : KeyPair) (env : TLSEnv) (parents : Parents) :
    (∀ e, (env.PrivateKey ()).2 = some e →
      k.Generate env parents = .ret none (some (.wrap e "failed to generate private key"))) ∧
    (∀ e, (env.PrivateKey ()).2 = none →
      (env.PublicKeyToPem (env.PrivateKey ()).1.PublicKey).2 = some e →
      k.Generate env parents =
        .ret none (some (.wrap e "failed to get public key data from private key"))) ∧
    ((env.PrivateKey ()).2 = none →
      (env.PublicKeyToPem (env.PrivateKey ()).1.PublicKey).2 = none →
      k.Generate env parents =
        .ret (some ⟨[⟨env.assetFilePath k.PrivKeyFileName,
              env.PrivateKeyToPem (env.PrivateKey ()).1⟩,
            ⟨env.assetFilePath k.PubKeyFileName,
              (env.PublicKeyToPem (env.PrivateKey ()).1.PublicKey).1⟩]⟩) none) ∧
    ((∃ err, k.Generate env parents = .ret none (some err)) ∨
      (∃ c1 c2, k.Generate env parents = .ret (some ⟨[c1, c2]⟩) none)) ∧
    (∀ parents2, k.Generate env parents2 = k.Generate env parents) := by
  unfold KeyPair.Generate
  cases h1 : (env.PrivateKey ()).2 <;>
    cases h2 : (env.PublicKeyToPem (env.PrivateKey ()).1.PublicKey).2 <;> simp [h1, h2]

theorem KeyPair_Generate_all_or_nothing_witness :
    theKeyPair.Generate okTLSEnv noParents =
        .ret (some ⟨[⟨"tls/ca.key", asciiBytes "RSA PRIVATE KEY"⟩,
          ⟨"tls/ca.pub", asciiBytes "PUBLIC KEY"⟩]⟩) none ∧
    theKeyPair.Generate pemFailTLSEnv okParents =
        .ret none (some (.wrap (.raw "encoding failed")
          "failed to get public key data from private key")) :=
  ⟨(KeyPair_Generate_all_or_nothing theKeyPair okTLSEnv noParents).2.2.1 rfl rfl,
    (KeyPair_Generate_all_or_nothing theKeyPair pemFailTLSEnv okParents).2.1 _ rfl rfl⟩

/-- C9, as the claim states it, fails: when unpacking the platform templates
fails, when unpacking `config.tf` fails, and when the read of the state file fails
after a successful apply, `Generate` returns the error of the failed call itself,
and not that error wrapped with any message. -/
theorem Cluster_Generate_returns_unwrapped_errors :
    (Event.Unpack "/tmp/openshift-install-1" "fake" (some (.raw "unpack failed")) ∈
        (theCluster.Generate unpackPlatformFailEnv okParents FS.empty).trace ∧
      (theCluster.Generate unpackPlatformFailEnv okParents FS.empty).out =
        .ret none (some (.raw "unpack failed")) ∧
      ¬ ∃ st msg, (theCluster.Generate unpackPlatformFailEnv okParents FS.empty).out =
        .ret st (some (.wrap (.raw "unpack failed") msg))) ∧
    (Event.Unpack "/tmp/openshift-install-1/config.tf" "config.tf"
          (some (.raw "unpack failed")) ∈
        (theCluster.Generate unpackConfigFailEnv okParents FS.empty).trace ∧
      (theCluster.Generate unpackConfigFailEnv okParents FS.empty).out =
        .ret none (some (.raw "unpack failed")) ∧
      ¬ ∃ st msg, (theCluster.Generate unpackConfigFailEnv okParents FS.empty).out =
        .ret st (some (.wrap (.raw "unpack failed") msg))) ∧
    (Event.ReadFile "/tmp/openshift-install-1/terraform.tfstate" []
          (some (.raw "open: no such file or directory")) ∈
        (theCluster.Generate applyOkNoStateEnv okParents FS.empty).trace ∧
      (theCluster.Generate applyOkNoStateEnv okParents FS.empty).out =
        .ret (some ⟨[⟨"terraform.state", []⟩]⟩)
          (some (.raw "open: no such file or directory")) ∧
      ¬ ∃ st msg, (theCluster.Generate applyOkNoStateEnv okParents FS.empty).out =
        .ret st (some (.wrap (.raw "open: no such file or directory") msg))) := by
  have h1 : (theCluster.Generate unpackPlatformFailEnv okParents FS.empty).out =
      .ret none (some (.raw "unpack failed")) := by decide
  have h2 : (theCluster.Generate unpackConfigFailEnv okParents FS.empty).out =
      .ret none (some (.raw "unpack failed")) := by decide
  have h3 : (theCluster.Generate applyOkNoStateEnv okParents FS.empty).out =
      .ret (some ⟨[⟨"terraform.state", []⟩]⟩)
        (some (.raw "open: no such file or directory")) := by decide
  refine ⟨⟨by decide, h1, ?_⟩, ⟨by decide, h2, ?_⟩, ⟨by decide, h3, ?_⟩⟩
  · rintro ⟨st, msg, h⟩
    rw [h1] at h
    simp at h
  · rintro ⟨st, msg, h⟩
    rw [h2] at h
    simp at h
  · rintro ⟨st, msg, h⟩
    rw [h3] at h
    simp at h

/-- C9, amended: the error of a failed workspace creation, tfvars write, tfvars
parse, `terraform.Init` or `terraform.Apply` is returned wrapped with the message
that names the operation; the error of a failed unpack, of the platform templates
or of `config.tf`, and the error of a failed read of the state file after a
successful apply are returned as they are, not wrapped. -/
theorem Cluster_Generate_error_wrapping (c : Cluster) (env : Env) (parents : Parents)
    (fs : FS) :
    (∀ d p n e, Event.TempDir d p n (some e) ∈ (c.Generate env parents fs).trace →
      (c.Generate env parents fs).out =
        .ret none (some (.wrap e "failed to create temp dir for terraform execution"))) ∧
    (∀ f b e, Event.WriteFile f b (some e) ∈ (c.Generate env parents fs).trace →
      (c.Generate env parents fs).out =
        .ret none (some (.wrap e "failed to write terraform.tfvars file"))) ∧
    (∀ b e, Event.Unmarshal b (some e) ∈ (c.Generate env parents fs).trace →
      (c.Generate env parents fs).out =
        .ret none (some (.wrap e "failed to Unmarshal terraform.tfvars file"))) ∧
    (∀ b u e, Event.Unpack b u (some e) ∈ (c.Generate env parents fs).trace →
      (c.Generate env parents fs).out = .ret none (some e)) ∧
    (∀ d e, Event.Init d (some e) ∈ (c.Generate env parents fs).trace →
      (c.Generate env parents fs).out =
        .ret none (some (.wrap e "failed to initialize terraform"))) ∧
    (∀ d sf e, Event.Apply d sf (some e) ∈ (c.Generate env parents fs).trace →
      ∃ st, (c.Generate env parents fs).out =
        .ret st (some (.wrap e "failed to run terraform"))) ∧
    (∀ d sf f b e, Event.Apply d sf none ∈ (c.Generate env parents fs).trace →
      Event.ReadFile f b (some e) ∈ (c.Generate env parents fs).trace →
      ∃ st, (c.Generate env parents fs).out = .ret st (some e)) := by
  have hp := Cluster.Generate_exitPath c env parents fs
  generalize (c.Generate env parents fs).out = o at hp ⊢
  generalize (c.Generate env parents fs).trace = t at hp ⊢
  cases hp <;> simp <;> intros <;> simp_all

theorem Cluster_Generate_error_wrapping_witness :
    (theCluster.Generate writeFailEnv okParents FS.empty).out =
        .ret none (some (.wrap (.raw "write failed") "failed to write terraform.tfvars file")) ∧
    (theCluster.Generate unpackPlatformFailEnv okParents FS.empty).out =
        .ret none (some (.raw "unpack failed")) :=
  ⟨(Cluster_Generate_error_wrapping theCluster writeFailEnv okParents FS.empty).2.1
      "/tmp/openshift-install-1/terraform.tfvars"
      (asciiBytes "\x7b\"platform\":\"fake\"\x7d") (.raw "write failed") (by decide),
    (Cluster_Generate_error_wrapping theCluster unpackPlatformFailEnv okParents
      FS.empty).2.2.2.1 "/tmp/openshift-install-1" "fake" (.raw "unpack failed") (by decide)⟩

/-- C10: with an entry for the tfvars asset whose State has no Contents, and a
workspace that was created, `Generate` does not return: the access to
`state.Contents[0]` panics with an index out of range. -/
theorem Cluster_Generate_empty_contents_panics :
    emptyStateParents theCluster.tfvars = some (some ⟨[]⟩) ∧
    (theCluster.Generate okEnv emptyStateParents FS.empty).out =
      .panic .indexOutOfRange := by
  decide

end Installer
